import Mathlib

/-!
Verification of the camera-parameters notebooks (`src/0-fundamentals/`).

The repository is a set of OpenCV instructional notebooks.  This file embeds
the pieces of those notebooks that the specification's claims are about:

* the `Frame` data model (a NumPy `uint8` raster of shape `(H, W)` for
  grayscale images and `(H, W, 3)` for BGR color images);
* the color-space conversions performed with `cv2.cvtColor`
  (`COLOR_BGR2GRAY`, `COLOR_GRAY2BGR`, `COLOR_BGR2RGB`, `COLOR_BGR2HSV`);
* the three `cv2.resize` call patterns (explicit `dsize`, target computed
  with Python `int(dim * scale)`, and the `fx`/`fy` form);
* the bounds-checked pixel-access demonstration;
* the three capture loops (the HD camera-feed loop, the date-time overlay
  loop, and the grayscale capture/record loop), modelled as step functions
  over a trace of capture events, with the display/write side effects and
  the resource releases made explicit.
-/

/-- A color frame: NumPy array of shape `(height, width, 3)` holding one
`uint8` value per pixel per channel, in OpenCV's native interleaved BGR
order (channel `0` = blue, `1` = green, `2` = red). -/
structure ColorFrame where
  height : Nat
  width : Nat
  pix : Nat → Nat → Fin 3 → Nat

/-- A grayscale frame: NumPy array of shape `(height, width)`, one `uint8`
value per pixel and no channel axis. -/
structure GrayFrame where
  height : Nat
  width : Nat
  pix : Nat → Nat → Nat

/-- `ndarray.shape` of a color frame: `(H, W, 3)`. -/
def ColorFrame.shape (f : ColorFrame) : List Nat :=
  [f.height, f.width, 3]

/-- `ndarray.shape` of a grayscale frame: `(H, W)` — no third entry. -/
def GrayFrame.shape (f : GrayFrame) : List Nat :=
  [f.height, f.width]

/-- Number of scalar values stored per pixel coordinate: the product of the
shape axes beyond height and width (`3` for a color frame; the empty
product `1` for a grayscale frame, whose shape has only two axes). -/
def channelValues (s : List Nat) : Nat :=
  (s.drop 2).prod

/-- Number of shape axes beyond height and width (`1` for color, `0` for
grayscale). -/
def channelAxes (s : List Nat) : Nat :=
  (s.drop 2).length

/-- The data model's channel-count attribute: the third shape entry when the
shape has one (`3` for color) and `0` when there is no channel axis
(grayscale). -/
def dmChannelCount (s : List Nat) : Nat :=
  s.getD 2 0

/-- `cv2.cvtColor(..., COLOR_BGR2GRAY)` on one pixel: OpenCV's fixed-point
luma formula `Y = (R*4899 + G*9617 + B*1868 + 2^13) >> 14`. -/
def bgr2grayPix (b g r : Nat) : Nat :=
  (r * 4899 + g * 9617 + b * 1868 + 8192) / 16384

/-- `cv2.cvtColor(img, cv2.COLOR_BGR2GRAY)`: same height and width, the
channel axis is dropped, each pixel is the luma of its BGR values. -/
def bgr2gray (f : ColorFrame) : GrayFrame :=
  ⟨f.height, f.width, fun y x => bgr2grayPix (f.pix y x 0) (f.pix y x 1) (f.pix y x 2)⟩

/-- `cv2.cvtColor(img, cv2.COLOR_GRAY2BGR)`: same height and width, the gray
value is replicated into all three channels. -/
def gray2bgr (f : GrayFrame) : ColorFrame :=
  ⟨f.height, f.width, fun y x _ => f.pix y x⟩

/-- `cv2.cvtColor(img, cv2.COLOR_BGR2RGB)`: same geometry, channel order
reversed. -/
def bgr2rgb (f : ColorFrame) : ColorFrame :=
  ⟨f.height, f.width, fun y x c => f.pix y x ⟨2 - c.val, by omega⟩⟩

/-- `cv2.cvtColor(..., COLOR_BGR2HSV)` on one pixel, following the library's
documented 8-bit formula: `V = max(R,G,B)`, `S = 255·(V−min)/V` (0 when
`V = 0`), hue in degrees from the dominant channel, halved into `0..179`. -/
def bgr2hsvPix (b g r : Nat) : Nat × Nat × Nat :=
  let v := max b (max g r)
  let mn := min b (min g r)
  let diff := v - mn
  let s := if v = 0 then 0 else diff * 255 / v
  let hDeg : Int :=
    if diff = 0 then 0
    else if v = r then 60 * ((g : Int) - b) / diff
    else if v = g then 120 + 60 * ((b : Int) - r) / diff
    else 240 + 60 * ((r : Int) - g) / diff
  let hDeg := if hDeg < 0 then hDeg + 360 else hDeg
  ((hDeg / 2).toNat, s, v)

/-- `cv2.cvtColor(img, cv2.COLOR_BGR2HSV)`: same geometry, still three
channels, now holding `(H, S, V)`. -/
def bgr2hsv (f : ColorFrame) : ColorFrame :=
  ⟨f.height, f.width, fun y x c =>
    let hsv := bgr2hsvPix (f.pix y x 0) (f.pix y x 1) (f.pix y x 2)
    match c.val with
    | 0 => hsv.1
    | 1 => hsv.2.1
    | _ => hsv.2.2⟩

/-- The notebooks' sample image `image1.png`: a concrete 486×739×3 frame
(the pixel contents are arbitrary; the claims depend only on geometry). -/
def sample486x739 : ColorFrame :=
  ⟨486, 739, fun y x c => (y + 2 * x + 3 * c.val) % 256⟩

/-- A small concrete 3×3 color frame used for explicit evaluations. -/
def sample3x3 : ColorFrame :=
  ⟨3, 3, fun y x c => (y * 3 + x + c.val) % 256⟩

/-- **C1.** For every successful pull, the grayscale transform yields one
channel value per pixel, the color transforms (BGR→HSV, BGR→RGB) and the
identity keep three; every color-space transform preserves height and
width; for the 486×739×3 input the grayscale result is 486 high and 739
wide.  ("Channel count" is read here as the number of scalar values per
pixel, the sense in which a grayscale image is one-channel; the data
model's shape-entry reading is settled under C9.) -/
theorem cvtColor_channelCount_and_dims (f : ColorFrame) :
    channelValues (bgr2gray f).shape = 1 ∧
    channelValues (bgr2hsv f).shape = 3 ∧
    channelValues (bgr2rgb f).shape = 3 ∧
    channelValues f.shape = 3 ∧
    (bgr2gray f).height = f.height ∧ (bgr2gray f).width = f.width ∧
    (bgr2hsv f).height = f.height ∧ (bgr2hsv f).width = f.width ∧
    (bgr2rgb f).height = f.height ∧ (bgr2rgb f).width = f.width ∧
    (bgr2gray sample486x739).height = 486 ∧ (bgr2gray sample486x739).width = 739 :=
  ⟨rfl, rfl, rfl, rfl, rfl, rfl, rfl, rfl, rfl, rfl, rfl, rfl⟩

/-- **C2.** The record loop's round trip `gray_frame = cvtColor(frame,
BGR2GRAY); gray_bgr = cvtColor(gray_frame, GRAY2BGR)` preserves height and
width, drops then restores the channel axis, and in the restored 3-channel
frame all three channels agree at every pixel. -/
theorem gray_roundtrip_equal_channels (f : ColorFrame) :
    (bgr2gray f).height = f.height ∧ (bgr2gray f).width = f.width ∧
    (bgr2gray f).shape = [f.height, f.width] ∧
    (gray2bgr (bgr2gray f)).height = f.height ∧
    (gray2bgr (bgr2gray f)).width = f.width ∧
    (gray2bgr (bgr2gray f)).shape = [f.height, f.width, 3] ∧
    (∀ (y x : Nat) (c c' : Fin 3),
      (gray2bgr (bgr2gray f)).pix y x c = (gray2bgr (bgr2gray f)).pix y x c') :=
  ⟨rfl, rfl, rfl, rfl, rfl, rfl, fun _ _ _ _ => rfl⟩

/-- **C9.** A frame produced by the grayscale transform has channel count 0
in the data model's sense: its shape is `(H, W)` with no channel axis, so
the channel-count attribute (third shape entry, defaulting to 0 when
absent) is 0, while a color frame's is 3. -/
theorem grayscale_no_channel_axis (f : ColorFrame) :
    dmChannelCount (bgr2gray f).shape = 0 ∧
    (bgr2gray f).shape = [f.height, f.width] ∧
    channelAxes (bgr2gray f).shape = 0 ∧
    dmChannelCount f.shape = 3 :=
  ⟨rfl, rfl, rfl, rfl⟩

/-- `cv2.resize(img, (dw, dh))`: fails (raises) when the requested size is
empty, otherwise yields a frame of exactly `dh` rows and `dw` columns with
the same three channels.  The claims verified here concern only the output
geometry; the pixel buffer is modelled as a coordinate-scaled source lookup
(the library's interpolation kernel refines the sampled values but leaves
geometry, channel count and dtype unchanged). -/
def cvResize (f : ColorFrame) (dw dh : Nat) : Option ColorFrame :=
  if dw = 0 ∨ dh = 0 then none
  else some ⟨dh, dw, fun y x c => f.pix (y * f.height / dh) (x * f.width / dw) c⟩

/-- Python `int()` applied to a rational: truncation toward zero. -/
def pyInt (q : ℚ) : ℤ :=
  if 0 ≤ q then ⌊q⌋ else ⌈q⌉

/-- The notebook's scale-factor resize: `new_width = int(original_width *
scale_factor)`, `new_height = int(original_height * scale_factor)`,
`cv2.resize(img, (new_width, new_height))`. -/
def resizeByScale (f : ColorFrame) (fac : ℚ) : Option ColorFrame :=
  cvResize f (pyInt ((f.width : ℚ) * fac)).toNat (pyInt ((f.height : ℚ) * fac)).toNat

/-- `cvRound`: round to the nearest integer, ties to even (the rounding the
library applies when computing an output size from `fx`/`fy`). -/
def roundHalfEven (q : ℚ) : ℤ :=
  let fl := ⌊q⌋
  if q - fl < 1 / 2 then fl
  else if 1 / 2 < q - fl then fl + 1
  else if fl % 2 = 0 then fl else fl + 1

/-- `cv2.resize(img, None, fx=.., fy=..)`: the library computes the target
size as `(round(W*fx), round(H*fy))` (`cvRound`, ties to even) and resizes
to it. -/
def resizeByFxFy (f : ColorFrame) (fx fy : ℚ) : Option ColorFrame :=
  cvResize f (roundHalfEven ((f.width : ℚ) * fx)).toNat
    (roundHalfEven ((f.height : ℚ) * fy)).toNat

/-- **C5 counterexample.** The claim "resizing by a scale factor `f` yields
`(floor(W·f), floor(H·f))`" fails on the `fx`/`fy` resize method: a 3×3
frame resized with `fx = fy = 3/5` comes out 2×2 (the library rounds
`3 · 3/5 = 1.8` to 2), while the claimed floor is 1. -/
theorem resize_fxfy_not_floor :
    (resizeByFxFy sample3x3 (3 / 5) (3 / 5)).map (fun r => (r.height, r.width))
      = some (2, 2) ∧
    ⌊(sample3x3.width : ℚ) * (3 / 5)⌋ = 1 ∧
    ⌊(sample3x3.height : ℚ) * (3 / 5)⌋ = 1 ∧ (2 : ℤ) ≠ 1 := by
  refine ⟨?_, ?_, ?_, by decide⟩
  · have hw : roundHalfEven ((sample3x3.width : ℚ) * (3 / 5)) = 2 := by
      norm_num [roundHalfEven, sample3x3]
    have hh : roundHalfEven ((sample3x3.height : ℚ) * (3 / 5)) = 2 := by
      norm_num [roundHalfEven, sample3x3]
    simp [resizeByFxFy, cvResize, hw, hh]
  · norm_num [sample3x3]
  · norm_num [sample3x3]

/-- **C5 amended.** The scale-factor resize that computes its target with
Python `int()` (the notebook's "scaled" method) yields exactly
`(floor(W·f), floor(H·f))` for every nonnegative factor; the `fx`/`fy`
method instead yields the dimensions rounded half-to-even, which for the
notebook's 486×739 input at factor 3/4 coincide with the floors
(554 × 364, as the notebook records). -/
theorem resize_scale_floor_and_fxfy_round :
    (∀ (f : ColorFrame) (fac : ℚ) (r : ColorFrame), 0 ≤ fac →
        resizeByScale f fac = some r →
        (r.width : ℤ) = ⌊(f.width : ℚ) * fac⌋ ∧
        (r.height : ℤ) = ⌊(f.height : ℚ) * fac⌋) ∧
    (∀ (f : ColorFrame) (fx fy : ℚ) (r : ColorFrame),
        resizeByFxFy f fx fy = some r →
        (r.width : ℤ) = roundHalfEven ((f.width : ℚ) * fx) ∧
        (r.height : ℤ) = roundHalfEven ((f.height : ℚ) * fy)) ∧
    ((resizeByFxFy sample486x739 (3 / 4) (3 / 4)).map (fun r => (r.height, r.width))
        = some (364, 554) ∧
      ⌊(sample486x739.width : ℚ) * (3 / 4)⌋ = 554 ∧
      ⌊(sample486x739.height : ℚ) * (3 / 4)⌋ = 364) := by
  refine ⟨?_, ?_, ?_, ?_, ?_⟩
  · intro f fac r hfac hr
    have hw : (0 : ℚ) ≤ (f.width : ℚ) * fac := mul_nonneg (by positivity) hfac
    have hh : (0 : ℚ) ≤ (f.height : ℚ) * fac := mul_nonneg (by positivity) hfac
    unfold resizeByScale cvResize at hr
    split at hr
    · exact absurd hr (by simp)
    · obtain rfl := (Option.some.injEq _ _).mp hr
      constructor
      · show ((pyInt ((f.width : ℚ) * fac)).toNat : ℤ) = _
        rw [pyInt, if_pos hw, Int.toNat_of_nonneg (Int.floor_nonneg.mpr hw)]
      · show ((pyInt ((f.height : ℚ) * fac)).toNat : ℤ) = _
        rw [pyInt, if_pos hh, Int.toNat_of_nonneg (Int.floor_nonneg.mpr hh)]
  · intro f fx fy r hr
    unfold resizeByFxFy cvResize at hr
    split at hr
    · exact absurd hr (by simp)
    · rename_i hne
      push_neg at hne
      obtain rfl := (Option.some.injEq _ _).mp hr
      constructor
      · show ((roundHalfEven ((f.width : ℚ) * fx)).toNat : ℤ) = _
        have := hne.1
        omega
      · show ((roundHalfEven ((f.height : ℚ) * fy)).toNat : ℤ) = _
        have := hne.2
        omega
  · have hw : roundHalfEven ((sample486x739.width : ℚ) * (3 / 4)) = 554 := by
      norm_num [roundHalfEven, sample486x739]
    have hh : roundHalfEven ((sample486x739.height : ℚ) * (3 / 4)) = 364 := by
      norm_num [roundHalfEven, sample486x739]
    simp [resizeByFxFy, cvResize, hw, hh]
  · norm_num [sample486x739]
  · norm_num [sample486x739]

/-- Witness for C5's amended theorem: the notebook's 486×739 frame at
factor 1/2 comes out with width `⌊739/2⌋ = 369` and height `⌊243⌋ = 243`. -/
theorem resize_scale_floor_witness :
    ∃ r, resizeByScale sample486x739 (1 / 2) = some r ∧
      (r.width : ℤ) = ⌊(739 : ℚ) * (1 / 2)⌋ ∧
      (r.height : ℤ) = ⌊(486 : ℚ) * (1 / 2)⌋ := by
  have hw : pyInt ((sample486x739.width : ℚ) * (1 / 2)) = 369 := by
    norm_num [pyInt, sample486x739]
  have hh : pyInt ((sample486x739.height : ℚ) * (1 / 2)) = 243 := by
    norm_num [pyInt, sample486x739]
  obtain ⟨r, hr⟩ : ∃ r, resizeByScale sample486x739 (1 / 2) = some r := by
    unfold resizeByScale
    rw [hw, hh]
    simp [cvResize]
  have h := resize_scale_floor_and_fxfy_round.1 sample486x739 (1 / 2) r (by norm_num) hr
  exact ⟨r, hr, by simpa [sample486x739] using h.1, by simpa [sample486x739] using h.2⟩

/-- **C6.** Resizing to an explicit (nonempty) target size always yields a
frame whose shape is exactly the requested one, whatever the source
frame's aspect ratio. -/
theorem resize_explicit_dsize_exact (f : ColorFrame) (dw dh : Nat)
    (hw : 0 < dw) (hh : 0 < dh) :
    ∃ r, cvResize f dw dh = some r ∧
      r.shape = [dh, dw, 3] ∧ r.height = dh ∧ r.width = dw := by
  refine ⟨⟨dh, dw, fun y x c => f.pix (y * f.height / dh) (x * f.width / dw) c⟩,
    ?_, rfl, rfl, rfl⟩
  unfold cvResize
  rw [if_neg (by omega)]

/-- Witness for C6: the notebook's `cv2.resize(img_color, (300, 300))` on
the 486×739 image yields shape `(300, 300, 3)`. -/
theorem resize_explicit_dsize_exact_witness :
    ∃ r, cvResize sample486x739 300 300 = some r ∧ r.shape = [300, 300, 3] := by
  obtain ⟨r, h1, h2, _, _⟩ :=
    resize_explicit_dsize_exact sample486x739 300 300 (by decide) (by decide)
  exact ⟨r, h1, h2⟩

/-- One event delivered to a capture loop iteration: a successful pull
(`cap.read()` returned `True` with a frame, and `cv2.waitKey(1)` then
returned `key`), an end-of-stream pull (`ret` falsy), or a
`KeyboardInterrupt` striking the iteration. -/
inductive CapEvent
  | frame (f : ColorFrame) (key : Int)
  | eos
  | interrupt

/-- Python's `key & 0xFF`: for every Python int (including `waitKey`'s `-1`
when no key is pressed) the bitwise AND with `0xFF` equals the
always-nonnegative `key mod 256`, which is `Int.emod`. -/
def waitKeyMask (key : Int) : Int :=
  key % 256

/-- An observable side effect of a loop iteration: an append to the
persistent output stream (`out.write`) or a display update
(`cv2.imshow`) on a named window. -/
inductive LoopEffect
  | writeFrame (f : ColorFrame)
  | showGray (window : String) (f : GrayFrame)
  | showColor (window : String) (f : ColorFrame)

/-- Whether an effect is a display update. -/
def LoopEffect.isDisplay : LoopEffect → Bool
  | .writeFrame _ => false
  | .showGray _ _ => true
  | .showColor _ _ => true

/-- Whether an effect is an append to the persistent output stream. -/
def LoopEffect.isWrite : LoopEffect → Bool
  | .writeFrame _ => true
  | _ => false

/-- Whether an effect is a display update on window `w`. -/
def LoopEffect.isShowOn (w : String) : LoopEffect → Bool
  | .writeFrame _ => false
  | .showGray w' _ => w' == w
  | .showColor w' _ => w' == w

/-- How a capture loop stopped: the designated stop key was polled, the
pull signalled end-of-stream, or a `KeyboardInterrupt` arrived. -/
inductive ExitKind
  | stopKey
  | endOfStream
  | interrupted
deriving DecidableEq

/-- The state a loop finishes in: effects emitted (in order), the exit
path taken, and the number of successful pulls processed. -/
structure LoopOut where
  effects : List LoopEffect
  exit : ExitKind
  frames : Nat

/-- The side effects of one successful iteration of the record loop (cell 5
of the image/video notebook), in source order: write the gray-back-to-BGR
frame to the video writer, show the grayscale frame, show the original. -/
def recordIterEffects (f : ColorFrame) : List LoopEffect :=
  let gray := bgr2gray f
  let grayBgr := gray2bgr gray
  [LoopEffect.writeFrame grayBgr,
   LoopEffect.showGray "Live Feed (Grayscale)" gray,
   LoopEffect.showColor "Original Feed" f]

/-- The record loop `while cap.isOpened(): ...` run on a trace of events,
with `acc` the effects emitted so far and `n` the `frame_count` so far.
An end-of-stream pull breaks before any effect of that iteration; a
successful pull emits the iteration's effects and then breaks if the
polled key masks to `27` (ESC); an interrupt aborts the iteration.
`none` means the trace ended with the loop still running. -/
def recordRunAux : List CapEvent → List LoopEffect → Nat → Option LoopOut
  | [], _, _ => none
  | CapEvent.interrupt :: _, acc, n => some ⟨acc, ExitKind.interrupted, n⟩
  | CapEvent.eos :: _, acc, n => some ⟨acc, ExitKind.endOfStream, n⟩
  | CapEvent.frame f key :: rest, acc, n =>
      let effs := recordIterEffects f
      if waitKeyMask key = 27 then some ⟨acc ++ effs, ExitKind.stopKey, n + 1⟩
      else recordRunAux rest (acc ++ effs) (n + 1)

/-- Final state of the record cell: the loop outcome plus whether
`cap.release()` and `out.release()` ran.  In the source the `while` sits in
a `try` whose `except KeyboardInterrupt` handler catches the interrupt, and
both release calls follow the `try`/`except`, so they run on every modelled
exit path. -/
structure RecordSessionOut where
  out : LoopOut
  capReleased : Bool
  outReleased : Bool

/-- The whole record cell: run the loop, then (`try`/`except` done) release
the capture device and the video writer. -/
def recordSession (ev : List CapEvent) : Option RecordSessionOut :=
  (recordRunAux ev [] 0).map fun o => ⟨o, true, true⟩

/-- The simple feed loops (HD camera feed, date-time overlay): each
successful iteration shows `overlay frame` on `window` and breaks when the
key masks to `stopCode`; a failed pull prints and breaks; there is no
`try`/`except`, so an interrupt propagates out of the loop. -/
def simpleFeedAux (overlay : ColorFrame → ColorFrame) (window : String)
    (stopCode : Int) :
    List CapEvent → List LoopEffect → Nat → Option LoopOut
  | [], _, _ => none
  | CapEvent.interrupt :: _, acc, n => some ⟨acc, ExitKind.interrupted, n⟩
  | CapEvent.eos :: _, acc, n => some ⟨acc, ExitKind.endOfStream, n⟩
  | CapEvent.frame f key :: rest, acc, n =>
      let effs := [LoopEffect.showColor window (overlay f)]
      if waitKeyMask key = stopCode then some ⟨acc ++ effs, ExitKind.stopKey, n + 1⟩
      else simpleFeedAux overlay window stopCode rest (acc ++ effs) (n + 1)

/-- Final state of a simple feed cell: loop outcome plus whether
`cap.release()` ran. -/
structure FeedSessionOut where
  out : LoopOut
  capReleased : Bool

/-- The HD camera-feed cell: the loop shows each raw frame on its window and
stops on `ord('q') = 113`; `cap.release()` is the statement after the loop,
so a propagating `KeyboardInterrupt` skips it. -/
def camFeedSession (ev : List CapEvent) : Option FeedSessionOut :=
  (simpleFeedAux (fun f => f) "Camera Feed - HD Resolution" 113 ev [] 0).map
    fun o => ⟨o, match o.exit with | ExitKind.interrupted => false | _ => true⟩

/-- The date-time overlay cell: same loop shape, showing the frame with the
two `cv2.putText` overlays (modelled as an arbitrary total frame transform
`overlay`, whose pixel content none of the claims depend on). -/
def dateTimeSession (overlay : ColorFrame → ColorFrame) (ev : List CapEvent) :
    Option FeedSessionOut :=
  (simpleFeedAux overlay "Camera Frame" 113 ev [] 0).map
    fun o => ⟨o, match o.exit with | ExitKind.interrupted => false | _ => true⟩

/-- **C3 counterexample.** "At most one display update per iteration" fails:
a successful record-loop iteration performs two display updates (one per
window). -/
theorem record_iteration_two_displays :
    (recordIterEffects sample3x3).countP LoopEffect.isDisplay = 2 ∧
    ¬ (recordIterEffects sample3x3).countP LoopEffect.isDisplay ≤ 1 := by
  constructor
  · rfl
  · decide

/-- **C3 amended.** Per successful record-loop iteration the side effects
are: exactly one append to the persistent output stream, and exactly two
display updates — one on each of the two windows, so at most one per
window. -/
theorem record_iteration_effect_counts (f : ColorFrame) :
    (recordIterEffects f).countP LoopEffect.isWrite = 1 ∧
    (recordIterEffects f).countP LoopEffect.isDisplay = 2 ∧
    (recordIterEffects f).countP (LoopEffect.isShowOn "Live Feed (Grayscale)") = 1 ∧
    (recordIterEffects f).countP (LoopEffect.isShowOn "Original Feed") = 1 := by
  refine ⟨rfl, rfl, ?_, ?_⟩ <;> simp [recordIterEffects, List.countP, List.countP.go,
    LoopEffect.isShowOn]

/-- **C4 counterexample.** "The release is unconditional on every exit path"
fails for the camera-feed loop, which has no `try`/`except`: on the
abrupt-interruption path the propagating exception skips `cap.release()`. -/
theorem camfeed_interrupt_skips_release :
    camFeedSession [CapEvent.interrupt]
      = some ⟨⟨[], ExitKind.interrupted, 0⟩, false⟩ := rfl

/-- **C4 amended.** The record cell releases both the device handle and the
output-stream handle on every exit path (stop key, end-of-stream, and
interruption, which its `except KeyboardInterrupt` catches); the simple
camera-feed cell releases its device handle on every exit path other than
abrupt interruption. -/
theorem release_on_exit_paths :
    (∀ (ev : List CapEvent) (r : RecordSessionOut),
        recordSession ev = some r → r.capReleased = true ∧ r.outReleased = true) ∧
    (∀ (ev : List CapEvent) (r : FeedSessionOut),
        camFeedSession ev = some r → r.out.exit ≠ ExitKind.interrupted →
        r.capReleased = true) := by
  constructor
  · intro ev r h
    cases ho : recordRunAux ev [] 0 with
    | none => simp [recordSession, ho] at h
    | some o =>
        simp only [recordSession, ho, Option.map_some'] at h
        obtain rfl := (Option.some.injEq _ _).mp h
        exact ⟨rfl, rfl⟩
  · intro ev r h hexit
    cases ho : simpleFeedAux (fun f => f) "Camera Feed - HD Resolution" 113 ev [] 0 with
    | none => simp [camFeedSession, ho] at h
    | some o =>
        simp only [camFeedSession, ho, Option.map_some'] at h
        obtain rfl := (Option.some.injEq _ _).mp h
        cases he : o.exit <;> simp_all

/-- Witness for C4's amended theorem at concrete traces: an end-of-stream
run of the record cell releases both handles, and an end-of-stream run of
the camera-feed cell releases its handle. -/
theorem release_on_exit_paths_witness :
    (∃ r, recordSession [CapEvent.eos] = some r ∧
        r.capReleased = true ∧ r.outReleased = true) ∧
    (∃ r, camFeedSession [CapEvent.eos] = some r ∧ r.capReleased = true) := by
  constructor
  · exact ⟨⟨⟨[], ExitKind.endOfStream, 0⟩, true, true⟩, rfl,
      release_on_exit_paths.1 [CapEvent.eos] _ rfl⟩
  · exact ⟨⟨⟨[], ExitKind.endOfStream, 0⟩, true⟩, rfl,
      release_on_exit_paths.2 [CapEvent.eos] _ rfl (by simp)⟩

/-- **C7.** End-of-stream on the very first pull: the record cell performs
zero display and zero persist side effects and still releases both handles;
the `if not ret: break` handling is position-independent (the same
equation holds mid-stream, for any already-emitted effects `acc` and any
frame count `n`); and the date-time overlay loop behaves the same way. -/
theorem eos_first_pull_no_effects :
    (∀ rest, recordSession (CapEvent.eos :: rest)
        = some ⟨⟨[], ExitKind.endOfStream, 0⟩, true, true⟩) ∧
    (∀ rest acc n, recordRunAux (CapEvent.eos :: rest) acc n
        = some ⟨acc, ExitKind.endOfStream, n⟩) ∧
    (∀ (overlay : ColorFrame → ColorFrame) rest,
        dateTimeSession overlay (CapEvent.eos :: rest)
          = some ⟨⟨[], ExitKind.endOfStream, 0⟩, true⟩) :=
  ⟨fun _ => rfl, fun _ _ _ => rfl, fun _ _ => rfl⟩

/-- **C8.** When the polled key masks to the stop code 27 (ESC), the record
loop exits right after the current iteration: the iteration's own write and
display effects are finalized (they sit at the end of the emitted effect
list), and nothing of the remaining trace is consumed — zero (hence at most
one) further display or persist side effects beyond the current
iteration. -/
theorem stop_key_exits_after_iteration (f : ColorFrame) (key : Int)
    (rest : List CapEvent) (acc : List LoopEffect) (n : Nat)
    (h : waitKeyMask key = 27) :
    recordRunAux (CapEvent.frame f key :: rest) acc n
      = some ⟨acc ++ recordIterEffects f, ExitKind.stopKey, n + 1⟩ ∧
    (recordIterEffects f).countP LoopEffect.isWrite = 1 ∧
    (recordIterEffects f).countP LoopEffect.isDisplay = 2 := by
  refine ⟨?_, rfl, rfl⟩
  simp [recordRunAux, h]

/-- Witness for C8 at a concrete input: pressing ESC (key 27) on the first
frame stops the loop with exactly that iteration's effects emitted. -/
theorem stop_key_exits_after_iteration_witness :
    recordRunAux [CapEvent.frame sample3x3 27] [] 0
      = some ⟨recordIterEffects sample3x3, ExitKind.stopKey, 1⟩ := by
  have h := stop_key_exits_after_iteration sample3x3 27 [] [] 0 (by decide)
  simpa using h.1

/-- A color image as NumPy stores it: height, width, and the flat `uint8`
buffer in row-major, interleaved-channel order, so the scalar at
`(y, x, c)` lives at flat index `(y*width + x)*3 + c`. -/
structure NdImage where
  h : Nat
  w : Nat
  data : List Nat
  hlen : data.length = h * w * 3

/-- A raw buffer read of the three channel values at `(y, x)`: `none` if any
of the three flat indices is out of range. -/
def readPixel (img : NdImage) (y x : Nat) : Option (Nat × Nat × Nat) :=
  match img.data[(y * img.w + x) * 3]?, img.data[(y * img.w + x) * 3 + 1]?,
      img.data[(y * img.w + x) * 3 + 2]? with
  | some b, some g, some r => some (b, g, r)
  | _, _, _ => none

/-- Outcome of the pixel-access demonstration cell: the pixel's BGR values
were printed, an out-of-range buffer read happened, or the
"out of bounds" reporting branch was taken. -/
inductive AccessOutcome
  | pixel (b g r : Nat)
  | readError
  | outOfBounds
deriving DecidableEq

/-- The pixel-access demonstration: `if y < img_color.shape[0] and x <
img_color.shape[1]: pixel = img_color[y, x] ... else: print("out of
bounds")`. -/
def pixelAccessDemo (img : NdImage) (y x : Nat) : AccessOutcome :=
  if y < img.h ∧ x < img.w then
    match readPixel img y x with
    | some (b, g, r) => AccessOutcome.pixel b g r
    | none => AccessOutcome.readError
  else AccessOutcome.outOfBounds

/-- In-bounds coordinates give in-range flat indices: the last of the three
indices read at `(y, x)` is below the buffer length. -/
theorem flatIndex_lt_length (img : NdImage) (y x : Nat)
    (hy : y < img.h) (hx : x < img.w) :
    (y * img.w + x) * 3 + 2 < img.data.length := by
  rw [img.hlen]
  have h1 : y * img.w + x < img.h * img.w := by
    calc y * img.w + x < y * img.w + img.w := by omega
    _ = (y + 1) * img.w := by ring
    _ ≤ img.h * img.w := Nat.mul_le_mul_right _ (by omega)
  omega

/-- **C10.** The pixel-access demonstration indexes the buffer only under
the guard `y < height ∧ x < width`; under the guard all three channel
reads are in range (so the read branch always yields the pixel, never an
out-of-range access), and outside it the reporting branch is taken. -/
theorem pixel_access_in_bounds (img : NdImage) (y x : Nat) :
    pixelAccessDemo img y x ≠ AccessOutcome.readError ∧
    (y < img.h ∧ x < img.w →
      (y * img.w + x) * 3 + 2 < img.data.length ∧
      ∃ b g r, pixelAccessDemo img y x = AccessOutcome.pixel b g r) ∧
    (¬ (y < img.h ∧ x < img.w) →
      pixelAccessDemo img y x = AccessOutcome.outOfBounds) := by
  have key : ∀ hy : y < img.h, ∀ hx : x < img.w,
      ∃ b g r, readPixel img y x = some (b, g, r) := by
    intro hy hx
    have hlt := flatIndex_lt_length img y x hy hx
    have h0 : (y * img.w + x) * 3 < img.data.length := by omega
    have h1 : (y * img.w + x) * 3 + 1 < img.data.length := by omega
    rw [readPixel, List.getElem?_eq_getElem h0, List.getElem?_eq_getElem h1,
      List.getElem?_eq_getElem hlt]
    exact ⟨_, _, _, rfl⟩
  refine ⟨?_, ?_, ?_⟩
  · intro hcontra
    rw [pixelAccessDemo] at hcontra
    split at hcontra
    · rename_i hin
      obtain ⟨b, g, r, hbgr⟩ := key hin.1 hin.2
      rw [hbgr] at hcontra
      exact AccessOutcome.noConfusion hcontra
    · exact AccessOutcome.noConfusion hcontra
  · rintro ⟨hy, hx⟩
    obtain ⟨b, g, r, hbgr⟩ := key hy hx
    refine ⟨flatIndex_lt_length img y x hy hx, b, g, r, ?_⟩
    rw [pixelAccessDemo, if_pos ⟨hy, hx⟩, hbgr]
  · intro hout
    rw [pixelAccessDemo, if_neg hout]

/-- A concrete 2×2×3 image buffer for evaluating the demonstration. -/
def sampleNdImage : NdImage :=
  ⟨2, 2, [10, 20, 30, 40, 50, 60, 70, 80, 90, 100, 110, 120], rfl⟩

/-- Witness for C10 at concrete inputs: coordinate (1, 1) of the 2×2 sample
is read in bounds (yielding a pixel), and coordinate (5, 0) takes the
reporting branch. -/
theorem pixel_access_in_bounds_witness :
    (∃ b g r, pixelAccessDemo sampleNdImage 1 1 = AccessOutcome.pixel b g r) ∧
    pixelAccessDemo sampleNdImage 5 0 = AccessOutcome.outOfBounds := by
  constructor
  · exact ((pixel_access_in_bounds sampleNdImage 1 1).2.1 (by decide)).2
  · exact (pixel_access_in_bounds sampleNdImage 5 0).2.2 (by decide)
